import Mathlib

/-!
Shallow embedding of the GenAI-Summarization repository:
`src/PerplexityClient.py` (the API client wrapper) and `src/app.py`
(the conversation orchestrator).

Modelling conventions:
- Python `Optional[str]` parameters become `Option String`; the Python
  truthiness idiom `a or b` (empty string and `None` both falsy) becomes
  `pyOr` / `pyOrOpt`.
- `PerplexityClient.chat` contains a `yield` statement in its body, so in
  Python it is a generator function: calling it builds a suspended
  generator and executes none of the body.  We model the call as `chat`
  (returning the inert `PyGen` record, which holds only the client and the
  arguments and consults no provider) and the act of driving the generator
  to exhaustion as `PyGen.run` / `runChat`, which records the requests
  issued, the values yielded, the `print` calls made, and the final
  outcome (a `StopIteration` payload or a propagated exception).
- The remote endpoint (`self.client.chat.completions.create`) is a
  `Provider` parameter: `create` for non-streaming calls and
  `createStream` for streaming calls.  A streaming response is the list
  of chunks delivered before the stream either completes (`midError =
  none`) or raises mid-iteration (`midError = some e`).
- Exceptions are the two classes distinguished by the source handlers:
  `OpenAIError` and every other `Exception`.
-/

namespace PerplexitySpec

/-- Python `a or b` for a possibly-`None` string `a` and a plain string
default `b`: `None` and the empty string are falsy. -/
def pyOr (a : Option String) (b : String) : String :=
  match a with
  | none => b
  | some s => if s = "" then b else s

/-- Python `a or b` where both operands are possibly-`None` strings
(used for `api_key or os.environ.get(...)`). -/
def pyOrOpt (a b : Option String) : Option String :=
  match a with
  | none => b
  | some s => if s = "" then b else some s

/-- One role/content pair, as the dicts built in both source files. -/
structure Message where
  role : String
  content : String
deriving DecidableEq

/-- The two exception classes the source handlers distinguish:
`except OpenAIError` and `except Exception`. -/
inductive PyError where
  | openAIError (msg : String)
  | otherError (msg : String)
deriving DecidableEq

/-- Python `str(e)` as interpolated into log lines and the orchestrator
error fragment. -/
def PyError.str : PyError → String
  | .openAIError m => m
  | .otherError m => m

/-- `ValueError`, the exception `__init__` raises on a missing key
(the specification taxonomy calls it ConfigurationError). -/
inductive InitError where
  | valueError (msg : String)
deriving DecidableEq

/-- The state a successfully constructed `PerplexityClient` holds
(the underlying OpenAI handle is bound to `api_key` and `base_url`). -/
structure Client where
  api_key : String
  base_url : String
  default_model : String
deriving DecidableEq

def DEFAULT_BASE_URL : String := "https://api.perplexity.ai"

def DEFAULT_MODEL : String := "sonar"

def DEFAULT_SYSTEM_PROMPT : String := "Be precise and concise."

def API_KEY_ERROR_MSG : String :=
  "Perplexity API key not provided or found in environment variables (PERPLEXITY_API_KEY)."

/-- `PerplexityClient.__init__` (src/PerplexityClient.py lines 25-50):
`self.api_key = api_key or os.environ.get("PERPLEXITY_API_KEY")`; if the
result is falsy, raise `ValueError`; otherwise fill `base_url` and
`default_model` from the arguments or the class defaults.  The
environment lookup is passed in as `env`, the value of the
`PERPLEXITY_API_KEY` variable (`none` when absent). -/
def init (api_key env base_url default_model : Option String) :
    Except InitError Client :=
  match pyOrOpt api_key env with
  | none => .error (.valueError API_KEY_ERROR_MSG)
  | some k =>
    if k = "" then .error (.valueError API_KEY_ERROR_MSG)
    else .ok ⟨k, pyOr base_url DEFAULT_BASE_URL, pyOr default_model DEFAULT_MODEL⟩

/-- `response.choices[i].message` of a non-streaming completion. -/
structure ChoiceMessage where
  content : String
deriving DecidableEq

/-- One element of `response.choices` of a non-streaming completion. -/
structure Choice where
  message : ChoiceMessage
deriving DecidableEq

/-- A non-streaming completion response. -/
structure Response where
  choices : List Choice
deriving DecidableEq

/-- `chunk.choices[i].delta` of a streaming chunk; `content` is `none`
when the attribute is absent or `None`. -/
structure Delta where
  content : Option String
deriving DecidableEq

/-- One element of `chunk.choices` of a streaming chunk. -/
structure StreamChoice where
  delta : Delta
deriving DecidableEq

/-- One chunk of a streaming response. -/
structure StreamChunk where
  choices : List StreamChoice
deriving DecidableEq

/-- What iterating a streaming response produces: the chunks delivered,
then either normal completion (`midError = none`) or an exception raised
mid-iteration (`midError = some e`). -/
structure StreamResult where
  chunks : List StreamChunk
  midError : Option PyError
deriving DecidableEq

/-- The remote endpoint `self.client.chat.completions.create`, keyed by
the `model` and `messages` arguments, for each of the two modes. -/
structure Provider where
  create : String → List Message → Except PyError Response
  createStream : String → List Message → Except PyError StreamResult

/-- The keyword arguments of `PerplexityClient.chat`
(src/PerplexityClient.py lines 60-67).  The source annotates
`message: str`. -/
structure ChatArgs where
  message : String
  model : Option String
  system_prompt : Option String
  messages : Option (List Message)
  stream : Bool
deriving DecidableEq

/-- Line 81: `selected_model = model or self.default_model`. -/
def selectedModel (c : Client) (model : Option String) : String :=
  pyOr model c.default_model

/-- Line 82: `current_system_prompt = system_prompt or self.DEFAULT_SYSTEM_PROMPT`. -/
def currentSystemPrompt (system_prompt : Option String) : String :=
  pyOr system_prompt DEFAULT_SYSTEM_PROMPT

/-- Lines 84-90: the conversation actually sent.  A supplied `messages`
list is used verbatim; otherwise a system/user pair is synthesized. -/
def chatMessages (message : String) (sys : String)
    (messages : Option (List Message)) : List Message :=
  match messages with
  | some ms => ms
  | none => [⟨"system", sys⟩, ⟨"user", message⟩]

/-- Lines 99-104: extraction of `chunk.choices[0].delta.content` with the
`hasattr`/emptiness guards; yields `none` when `chunk.choices` is empty or
the delta carries no content attribute. -/
def chunkContent (ch : StreamChunk) : Option String :=
  match ch.choices with
  | [] => none
  | c :: _ => c.delta.content

/-- Lines 104-106: `content = getattr(..., None); if content: yield content`
— the truthiness test additionally drops empty strings. -/
def chunkYield (ch : StreamChunk) : Option String :=
  match chunkContent ch with
  | none => none
  | some s => if s = "" then none else some s

/-- The full sequence of values the `for chunk in response` loop yields. -/
def streamYields (chunks : List StreamChunk) : List String :=
  chunks.filterMap chunkYield

/-- A `print` call the body makes: line 111 prints the full non-streaming
response; lines 115 and 118 log the two exception classes. -/
inductive LogEntry where
  | printedResponse (r : Response)
  | apiError (msg : String)
  | unexpectedError (msg : String)
deriving DecidableEq

/-- Which log line the `except` clauses produce for an exception
(lines 114-119). -/
def logFor (e : PyError) : LogEntry :=
  match e with
  | .openAIError m => .apiError m
  | .otherError m => .unexpectedError m

/-- One request handed to `self.client.chat.completions.create`. -/
structure ChatRequest where
  model : String
  messages : List Message
  stream : Bool
deriving DecidableEq

/-- The observable outcome of driving the `chat` generator to exhaustion:
the requests issued, the values yielded, the `print` calls made, and
either the `StopIteration` payload (`.ok`; `some s` for `return s`,
`none` for falling off the end) or the exception that propagated
(`.error`). -/
structure GenRun where
  requests : List ChatRequest
  yielded : List String
  log : List LogEntry
  result : Except PyError (Option String)

def INDEX_ERROR_MSG : String := "list index out of range"

/-- The body of `PerplexityClient.chat` (lines 81-119), executed when the
generator is driven.  Streaming branch: issue the streaming request and
yield each truthy delta; a mid-iteration exception is logged and
re-raised.  Non-streaming branch: issue the request, print the response,
and `return response.choices[0].message.content` (an empty `choices`
raises `IndexError`, caught by the generic handler, logged, re-raised). -/
def runChat (c : Client) (p : Provider) (a : ChatArgs) : GenRun :=
  let model := selectedModel c a.model
  let sys := currentSystemPrompt a.system_prompt
  let msgs := chatMessages a.message sys a.messages
  if a.stream then
    let req : ChatRequest := ⟨model, msgs, true⟩
    match p.createStream model msgs with
    | .error e => ⟨[req], [], [logFor e], .error e⟩
    | .ok sr =>
      match sr.midError with
      | none => ⟨[req], streamYields sr.chunks, [], .ok none⟩
      | some e => ⟨[req], streamYields sr.chunks, [logFor e], .error e⟩
  else
    let req : ChatRequest := ⟨model, msgs, false⟩
    match p.create model msgs with
    | .error e => ⟨[req], [], [logFor e], .error e⟩
    | .ok resp =>
      match resp.choices with
      | [] =>
        ⟨[req], [], [.printedResponse resp, logFor (.otherError INDEX_ERROR_MSG)],
          .error (.otherError INDEX_ERROR_MSG)⟩
      | ch :: _ => ⟨[req], [], [.printedResponse resp], .ok (some ch.message.content)⟩

/-- The suspended generator object a call to `chat` evaluates to: it
closes over the client and the arguments and touches no provider. -/
structure PyGen where
  client : Client
  args : ChatArgs
deriving DecidableEq

/-- `PerplexityClient.chat(...)` itself: because the body contains
`yield`, the call runs none of the body and merely builds the generator. -/
def chat (c : Client) (a : ChatArgs) : PyGen := ⟨c, a⟩

/-- Driving the generator returned by `chat` to exhaustion. -/
def PyGen.run (g : PyGen) (p : Provider) : GenRun := runChat g.client p g.args

/-!
The conversation orchestrator, `src/app.py`.
-/

/-- The fragment `stream_perplexity_response` yields when consuming the
stream raises: Python `f"[Error: {e}]"` (src/app.py line 21). -/
def errorFragment (e : PyError) : String := "[Error: " ++ e.str ++ "]"

/-- `app.py` calls `client.chat(message=None, ...)`; the `message`
argument is never read on the `messages`-override path (see
`runChat_message_irrelevant`), so the placeholder value is immaterial. -/
def noneMessagePlaceholder : String := ""

/-- `stream_perplexity_response` (src/app.py lines 14-21): iterate the
generator built by `client.chat(message=None, messages=messages,
model=model, stream=stream)`, re-yielding every chunk; on any exception,
yield the single fragment `"[Error: <e>]"` instead.  The value is the
full list of fragments its caller consumes. -/
def streamPerplexityResponse (c : Client) (p : Provider)
    (messages : List Message) (model : String) (stream : Bool) : List String :=
  let g := (chat c ⟨noneMessagePlaceholder, some model, none, some messages, stream⟩).run p
  match g.result with
  | .ok _ => g.yielded
  | .error e => g.yielded ++ [errorFragment e]

/-- The per-session state `app.py` keeps in `st.session_state`. -/
structure SessionState where
  messages : List Message
  pdf_content : String
  system_prompt : String
  model : String
deriving DecidableEq

/-- The `for i, m in enumerate(chat_history): if m["role"] == "user":
... break` loop (src/app.py lines 107-113): replace the first
user-role entry with its PDF-context rewrite and stop. -/
def rewriteFirstUser (pdf : String) : List Message → List Message
  | [] => []
  | m :: rest =>
    if m.role = "user" then
      ⟨"user", "Context from PDF:\n" ++ pdf ++ "\n\n" ++ m.content⟩ :: rest
    else m :: rewriteFirstUser pdf rest

/-- Src/app.py line 106: the rewrite runs only under
`if st.session_state["pdf_content"] and chat_history:`. -/
def injectPdfContext (pdf : String) (chat_history : List Message) : List Message :=
  if pdf ≠ "" ∧ chat_history ≠ [] then rewriteFirstUser pdf chat_history
  else chat_history

/-- Src/app.py lines 101-114: the outgoing messages list is the system
message followed by the (possibly rewritten) copy of the stored
history. -/
def composeOutgoing (system_prompt pdf : String)
    (chat_history : List Message) : List Message :=
  ⟨"system", system_prompt⟩ :: injectPdfContext pdf chat_history

/-- One chat turn (src/app.py lines 96-124): append the user prompt to
the stored history, build the outgoing messages from a copy, stream the
response through `stream_perplexity_response` accumulating
`response_text += chunk`, and append the assistant turn to the stored
history.  The client constructed by `PerplexityClient()` is passed in as
`c`. -/
def chatTurn (st : SessionState) (c : Client) (p : Provider)
    (prompt : String) : SessionState :=
  let messages1 := st.messages ++ [⟨"user", prompt⟩]
  let outgoing := composeOutgoing st.system_prompt st.pdf_content messages1
  let fragments := streamPerplexityResponse c p outgoing st.model true
  let response_text := fragments.foldl (fun acc ch => acc ++ ch) ""
  { messages := messages1 ++ [⟨"assistant", response_text⟩],
    pdf_content := st.pdf_content,
    system_prompt := st.system_prompt,
    model := st.model }

/-- A deterministic mock provider: every non-streaming completion holds
the single content `full`; every streaming call delivers `chunks` and
then ends with `mid` (`none` for normal completion). -/
def constMock (full : String) (chunks : List StreamChunk)
    (mid : Option PyError) : Provider :=
  { create := fun _ _ => .ok ⟨[⟨⟨full⟩⟩]⟩,
    createStream := fun _ _ => .ok ⟨chunks, mid⟩ }

/-- The mock of the specification scenario. -/
def galaxyMock : Provider := constMock "About 100 billion." [] none

def galaxyQuestion : String := "How many stars are there in our galaxy?"

/-- The specification scenario call: the galaxy question, every option
defaulted, stream=False. -/
def galaxyArgs : ChatArgs := ⟨galaxyQuestion, none, none, none, false⟩

/-- The specification scenario client: api_key "k", defaults elsewhere. -/
def galaxyClient : Client := ⟨"k", DEFAULT_BASE_URL, DEFAULT_MODEL⟩

/-!
Helper lemmas.
-/

theorem join_cons (s : String) (l : List String) :
    String.join (s :: l) = s ++ String.join l := by
  apply String.ext
  simp [String.data_join, String.data_append]

theorem join_append (l₁ l₂ : List String) :
    String.join (l₁ ++ l₂) = String.join l₁ ++ String.join l₂ := by
  apply String.ext
  simp [String.data_join, String.data_append]

theorem join_singleton (s : String) : String.join [s] = s := by
  apply String.ext
  simp [String.data_join]

/-- The values the streaming loop yields are exactly the extracted delta
contents with the falsy ones dropped. -/
theorem streamYields_eq_filter (chunks : List StreamChunk) :
    streamYields chunks
      = (chunks.filterMap chunkContent).filter (fun s => s ≠ "") := by
  induction chunks with
  | nil => rfl
  | cons ch rest ih =>
    simp only [streamYields, List.filterMap_cons] at ih ⊢
    cases hc : chunkContent ch with
    | none => simp [chunkYield, hc, ih]
    | some s =>
      by_cases hs : s = ""
      · simp [chunkYield, hc, hs, ih]
      · simp [chunkYield, hc, hs, ih]

/-- Dropping the empty deltas does not change the concatenation. -/
theorem join_streamYields (chunks : List StreamChunk) :
    String.join (streamYields chunks)
      = String.join (chunks.map (fun ch => (chunkContent ch).getD "")) := by
  induction chunks with
  | nil => rfl
  | cons ch rest ih =>
    simp only [streamYields, List.filterMap_cons, List.map_cons, join_cons] at ih ⊢
    cases hc : chunkContent ch with
    | none => simpa [chunkYield, hc, String.empty_append] using ih
    | some s =>
      by_cases hs : s = ""
      · subst hs
        simpa [chunkYield, hc, String.empty_append] using ih
      · simp [chunkYield, hc, hs, join_cons, ih]

/-- Every branch of the generator body issues exactly one request, with
the effective model, the effective conversation and the stream flag. -/
theorem runChat_requests (c : Client) (p : Provider) (a : ChatArgs) :
    (runChat c p a).requests
      = [⟨selectedModel c a.model,
          chatMessages a.message (currentSystemPrompt a.system_prompt) a.messages,
          a.stream⟩] := by
  obtain ⟨msg, mdl, sp, ms, stream⟩ := a
  cases stream <;>
    simp only [runChat, if_true, if_false, Bool.false_eq_true, ite_false,
      ite_true] <;>
    (repeat' split) <;> rfl

/-- On the `messages`-override path, neither `message` nor
`system_prompt` influences the run. -/
theorem runChat_message_irrelevant (c : Client) (p : Provider)
    (m₁ m₂ : String) (sp₁ sp₂ mdl : Option String) (ms : List Message)
    (stream : Bool) :
    runChat c p ⟨m₁, mdl, sp₁, some ms, stream⟩
      = runChat c p ⟨m₂, mdl, sp₂, some ms, stream⟩ := rfl

/-!
The claims.
-/

/-- Claim C1 (evidence of the divergence): at the specification scenario
input — client with api_key "k" and defaults, the galaxy question,
stream=False, against the mock whose first completion choice holds
"About 100 billion." — the call to chat evaluates to the inert suspended
generator (because the body of chat contains a yield statement); driving
it yields zero fragments and delivers "About 100 billion." only as the
StopIteration payload, never as an ordinary string return value of the
call. -/
theorem chat_galaxy_nonstream_run :
    chat galaxyClient galaxyArgs = PyGen.mk galaxyClient galaxyArgs
    ∧ ((chat galaxyClient galaxyArgs).run galaxyMock).yielded = []
    ∧ ((chat galaxyClient galaxyArgs).run galaxyMock).result
        = .ok (some "About 100 billion.") :=
  ⟨rfl, rfl, rfl⟩

/-- Claim C2: the body of chat contains a yield statement, so every call
returns the suspended generator object regardless of the stream flag (no
request is issued at call time — `chat` does not even consult a
provider); with stream=False and a provider whose response holds a first
completion choice, driving the generator yields zero fragments and
delivers the content only as the StopIteration payload. -/
theorem chat_nonstream_is_generator (c : Client) (p : Provider)
    (a : ChatArgs) (hs : a.stream = false) (resp : Response) (ch : Choice)
    (rest : List Choice)
    (hp : p.create (selectedModel c a.model)
        (chatMessages a.message (currentSystemPrompt a.system_prompt) a.messages)
        = .ok resp)
    (hc : resp.choices = ch :: rest) :
    chat c a = PyGen.mk c a
    ∧ ((chat c a).run p).yielded = []
    ∧ ((chat c a).run p).result = .ok (some ch.message.content) := by
  refine ⟨rfl, ?_, ?_⟩ <;>
    simp [chat, PyGen.run, runChat, hs, hp, hc]

/-- Witness for C2 at a concrete input. -/
theorem chat_nonstream_is_generator_witness :
    chat galaxyClient ⟨"hello", none, none, none, false⟩
        = PyGen.mk galaxyClient ⟨"hello", none, none, none, false⟩
    ∧ ((chat galaxyClient ⟨"hello", none, none, none, false⟩).run
        (constMock "hi there" [] none)).yielded = []
    ∧ ((chat galaxyClient ⟨"hello", none, none, none, false⟩).run
        (constMock "hi there" [] none)).result = .ok (some "hi there") :=
  chat_nonstream_is_generator galaxyClient (constMock "hi there" [] none)
    ⟨"hello", none, none, none, false⟩ rfl ⟨[⟨⟨"hi there"⟩⟩]⟩ ⟨⟨"hi there"⟩⟩ []
    rfl rfl

/-- Claim C3: when neither the api_key argument nor the
PERPLEXITY_API_KEY environment variable supplies a non-empty key,
construction fails with the ValueError (the ConfigurationError of the
specification) before any request is attempted (init consults no
provider at all); resolution order is the explicit argument first, then
the environment variable, then failure. -/
theorem init_key_resolution (ak env bu dm : Option String) :
    ((ak = none ∨ ak = some "") → (env = none ∨ env = some "") →
      init ak env bu dm = .error (.valueError API_KEY_ERROR_MSG))
    ∧ (∀ k, k ≠ "" → ak = some k →
        init ak env bu dm
          = .ok ⟨k, pyOr bu DEFAULT_BASE_URL, pyOr dm DEFAULT_MODEL⟩)
    ∧ (∀ e, e ≠ "" → (ak = none ∨ ak = some "") → env = some e →
        init ak env bu dm
          = .ok ⟨e, pyOr bu DEFAULT_BASE_URL, pyOr dm DEFAULT_MODEL⟩) := by
  refine ⟨?_, ?_, ?_⟩
  · rintro (rfl | rfl) (rfl | rfl) <;> rfl
  · rintro k hk rfl
    simp [init, pyOrOpt, hk]
  · rintro e he (rfl | rfl) rfl <;> simp [init, pyOrOpt, he]

/-- Witness for C3 at concrete inputs: both sources empty fails; an
explicit key wins over the environment; an empty explicit argument falls
through to the environment key. -/
theorem init_key_resolution_witness :
    init none none none none = .error (.valueError API_KEY_ERROR_MSG)
    ∧ init (some "k") (some "ignored") none none
        = .ok ⟨"k", DEFAULT_BASE_URL, DEFAULT_MODEL⟩
    ∧ init (some "") (some "envkey") none none
        = .ok ⟨"envkey", DEFAULT_BASE_URL, DEFAULT_MODEL⟩ :=
  ⟨(init_key_resolution none none none none).1 (Or.inl rfl) (Or.inl rfl),
   (init_key_resolution (some "k") (some "ignored") none none).2.1 "k"
     (by decide) rfl,
   (init_key_resolution (some "") (some "envkey") none none).2.2 "envkey"
     (by decide) (Or.inr rfl) rfl⟩

/-- With no user-role entry before it, the first user-role message is the
one the rewrite loop replaces, and everything after it is untouched. -/
theorem rewriteFirstUser_append (pdf : String) (pre post : List Message)
    (m : Message) (hpre : ∀ x ∈ pre, x.role ≠ "user") (hm : m.role = "user") :
    rewriteFirstUser pdf (pre ++ m :: post)
      = pre ++ ⟨"user", "Context from PDF:\n" ++ pdf ++ "\n\n" ++ m.content⟩ :: post := by
  induction pre with
  | nil => simp [rewriteFirstUser, hm]
  | cons x xs ih =>
    have hx : ¬x.role = "user" := hpre x (by simp)
    simp only [List.cons_append, rewriteFirstUser, hx, if_false, ite_false]
    exact congrArg (x :: ·) (ih (fun y hy => hpre y (by simp [hy])))

/-- The accumulation loop `response_text += chunk` computes the join. -/
theorem foldl_append_eq_join (l : List String) :
    l.foldl (fun acc ch => acc ++ ch) "" = String.join l := rfl

/-- Claim C4: when consuming the streaming sequence raises, the stream
consumer of the orchestrator keeps every fragment already produced,
appends exactly one trailing fragment "[Error: <description>]", stores
the concatenation as the assistant turn, and the turn still completes
(the session state is updated, not torn down). -/
theorem stream_error_appends_fragment (c : Client) (p : Provider)
    (st : SessionState) (prompt : String) (chunks : List StreamChunk)
    (e : PyError)
    (hp : p.createStream (selectedModel c (some st.model))
        (composeOutgoing st.system_prompt st.pdf_content
          (st.messages ++ [⟨"user", prompt⟩]))
        = .ok ⟨chunks, some e⟩) :
    streamPerplexityResponse c p
        (composeOutgoing st.system_prompt st.pdf_content
          (st.messages ++ [⟨"user", prompt⟩])) st.model true
      = streamYields chunks ++ [errorFragment e]
    ∧ (chatTurn st c p prompt).messages
      = st.messages ++ [⟨"user", prompt⟩,
          ⟨"assistant",
            String.join (streamYields chunks) ++ errorFragment e⟩] := by
  have hmain : streamPerplexityResponse c p
      (composeOutgoing st.system_prompt st.pdf_content
        (st.messages ++ [⟨"user", prompt⟩])) st.model true
      = streamYields chunks ++ [errorFragment e] := by
    simp [streamPerplexityResponse, chat, PyGen.run, runChat, chatMessages, hp]
  refine ⟨hmain, ?_⟩
  simp only [chatTurn, hmain, foldl_append_eq_join, join_append, join_singleton,
    List.append_assoc, List.cons_append, List.nil_append]

/-- Witness data for the orchestrator claims. -/
def wChunkHello : StreamChunk := ⟨[⟨⟨some "Hello"⟩⟩]⟩

def wSt : SessionState := ⟨[], "", DEFAULT_SYSTEM_PROMPT, "sonar"⟩

/-- Witness for C4: one fragment already produced, then an OpenAIError. -/
theorem stream_error_appends_fragment_witness :
    streamPerplexityResponse galaxyClient
        (constMock "" [wChunkHello] (some (.openAIError "boom")))
        (composeOutgoing wSt.system_prompt wSt.pdf_content
          (wSt.messages ++ [⟨"user", "hi"⟩])) wSt.model true
      = streamYields [wChunkHello] ++ [errorFragment (.openAIError "boom")]
    ∧ (chatTurn wSt galaxyClient
        (constMock "" [wChunkHello] (some (.openAIError "boom"))) "hi").messages
      = wSt.messages ++ [⟨"user", "hi"⟩,
          ⟨"assistant",
            String.join (streamYields [wChunkHello])
              ++ errorFragment (.openAIError "boom")⟩] :=
  stream_error_appends_fragment galaxyClient
    (constMock "" [wChunkHello] (some (.openAIError "boom"))) wSt "hi"
    [wChunkHello] (.openAIError "boom") rfl

/-- Claim C5: with a non-empty document text, exactly the first
user-role message of the outgoing copy receives the
"Context from PDF:" rewrite and everything after it is sent unmodified;
with an empty document text nothing is rewritten; and the stored
conversation history is never touched by the rewrite — after a turn it
is exactly the old history plus the raw user prompt plus the assistant
turn. -/
theorem pdf_context_first_user_only (sys pdf : String)
    (pre post : List Message) (m : Message) (hpdf : pdf ≠ "")
    (hpre : ∀ x ∈ pre, x.role ≠ "user") (hm : m.role = "user") :
    composeOutgoing sys pdf (pre ++ m :: post)
      = ⟨"system", sys⟩ ::
          (pre ++ ⟨"user", "Context from PDF:\n" ++ pdf ++ "\n\n" ++ m.content⟩
            :: post)
    ∧ (∀ hist : List Message, composeOutgoing sys "" hist = ⟨"system", sys⟩ :: hist)
    ∧ (∀ (st : SessionState) (c : Client) (p : Provider) (prompt : String),
        (chatTurn st c p prompt).messages
          = st.messages ++ [⟨"user", prompt⟩,
              ⟨"assistant",
                String.join (streamPerplexityResponse c p
                  (composeOutgoing st.system_prompt st.pdf_content
                    (st.messages ++ [⟨"user", prompt⟩])) st.model true)⟩]) := by
  refine ⟨?_, ?_, ?_⟩
  · simp only [composeOutgoing, injectPdfContext]
    rw [if_pos ⟨hpdf, by simp⟩, rewriteFirstUser_append pdf pre post m hpre hm]
  · intro hist
    simp [composeOutgoing, injectPdfContext]
  · intro st c p prompt
    simp only [chatTurn, foldl_append_eq_join, List.append_assoc,
      List.cons_append, List.nil_append]

/-- Witness for C5: document "DOC", a prior assistant entry, the first
user turn rewritten, a later user turn untouched; plus the empty-text
and stored-history parts at the same inputs. -/
theorem pdf_context_first_user_only_witness :
    composeOutgoing "S" "DOC"
        ([⟨"assistant", "a0"⟩] ++ ⟨"user", "Q1"⟩
          :: [⟨"assistant", "A1"⟩, ⟨"user", "Q2"⟩])
      = ⟨"system", "S"⟩ ::
          ([⟨"assistant", "a0"⟩] ++
            ⟨"user", "Context from PDF:\nDOC\n\nQ1"⟩
              :: [⟨"assistant", "A1"⟩, ⟨"user", "Q2"⟩])
    ∧ (∀ hist : List Message, composeOutgoing "S" "" hist = ⟨"system", "S"⟩ :: hist)
    ∧ (∀ (st : SessionState) (c : Client) (p : Provider) (prompt : String),
        (chatTurn st c p prompt).messages
          = st.messages ++ [⟨"user", prompt⟩,
              ⟨"assistant",
                String.join (streamPerplexityResponse c p
                  (composeOutgoing st.system_prompt st.pdf_content
                    (st.messages ++ [⟨"user", prompt⟩])) st.model true)⟩]) := by
  have h := pdf_context_first_user_only "S" "DOC" [⟨"assistant", "a0"⟩]
    [⟨"assistant", "A1"⟩, ⟨"user", "Q2"⟩] ⟨"user", "Q1"⟩
    (by decide) (by decide) rfl
  exact ⟨by simpa using h.1, h.2.1, h.2.2⟩

/-- Claim C6: a supplied messages list is sent verbatim as the
conversation (the issued request carries it unchanged, with no
synthesized system/user pair) and both system_prompt and the message
argument are ignored — the whole run is unchanged under any values for
them; with no messages list the issued request carries exactly the
synthesized pair {system, effective system prompt} then
{user, message}, in that order. -/
theorem messages_override (c : Client) (p : Provider) (a : ChatArgs) :
    (∀ ms, a.messages = some ms →
      ((chat c a).run p).requests = [⟨selectedModel c a.model, ms, a.stream⟩]
      ∧ ∀ m sp, (chat c ⟨m, a.model, sp, some ms, a.stream⟩).run p
          = (chat c a).run p)
    ∧ (a.messages = none →
      ((chat c a).run p).requests
        = [⟨selectedModel c a.model,
            [⟨"system", currentSystemPrompt a.system_prompt⟩,
             ⟨"user", a.message⟩], a.stream⟩]) := by
  obtain ⟨msg, mdl, sp0, ms0, str⟩ := a
  constructor
  · rintro ms rfl
    constructor
    · rw [show ((chat c ⟨msg, mdl, sp0, some ms, str⟩).run p)
          = runChat c p ⟨msg, mdl, sp0, some ms, str⟩ from rfl,
        runChat_requests]
      exact rfl
    · intro m sp
      exact runChat_message_irrelevant c p m msg sp sp0 mdl ms str
  · rintro rfl
    rw [show ((chat c ⟨msg, mdl, sp0, none, str⟩).run p)
        = runChat c p ⟨msg, mdl, sp0, none, str⟩ from rfl,
      runChat_requests]
    exact rfl

/-- Witness for C6 at concrete inputs: a verbatim two-entry history with
a decoy system_prompt, and a defaulted call synthesizing the pair. -/
theorem messages_override_witness :
    (((chat galaxyClient
        ⟨"ignored", some "sonar-pro", some "IGNORED",
         some [⟨"system", "S"⟩, ⟨"user", "U"⟩], true⟩).run galaxyMock).requests
      = [⟨selectedModel galaxyClient (some "sonar-pro"),
          [⟨"system", "S"⟩, ⟨"user", "U"⟩], true⟩]
      ∧ ∀ m sp, (chat galaxyClient
          ⟨m, some "sonar-pro", sp, some [⟨"system", "S"⟩, ⟨"user", "U"⟩],
           true⟩).run galaxyMock
        = (chat galaxyClient
            ⟨"ignored", some "sonar-pro", some "IGNORED",
             some [⟨"system", "S"⟩, ⟨"user", "U"⟩], true⟩).run galaxyMock)
    ∧ ((chat galaxyClient galaxyArgs).run galaxyMock).requests
        = [⟨selectedModel galaxyClient none,
            [⟨"system", currentSystemPrompt none⟩,
             ⟨"user", galaxyQuestion⟩], false⟩] :=
  ⟨(messages_override galaxyClient galaxyMock
      ⟨"ignored", some "sonar-pro", some "IGNORED",
       some [⟨"system", "S"⟩, ⟨"user", "U"⟩], true⟩).1
      [⟨"system", "S"⟩, ⟨"user", "U"⟩] rfl,
   (messages_override galaxyClient galaxyMock galaxyArgs).2 rfl⟩

/-- Claim C7: against a deterministic mock whose streamed deltas
concatenate to the full content of its non-streaming completion, the
streaming call yields a finite fragment list whose concatenation equals
the string the equivalent non-streaming call delivers. -/
theorem stream_concat_eq_nonstream (c : Client) (p : Provider) (a : ChatArgs)
    (chunks : List StreamChunk) (full : String) (rest : List Choice)
    (hstream : p.createStream (selectedModel c a.model)
        (chatMessages a.message (currentSystemPrompt a.system_prompt) a.messages)
        = .ok ⟨chunks, none⟩)
    (hfull : p.create (selectedModel c a.model)
        (chatMessages a.message (currentSystemPrompt a.system_prompt) a.messages)
        = .ok ⟨⟨⟨full⟩⟩ :: rest⟩)
    (hsum : String.join (chunks.map (fun ch => (chunkContent ch).getD "")) = full) :
    String.join ((runChat c p { a with stream := true }).yielded) = full
    ∧ (runChat c p { a with stream := false }).result = .ok (some full) := by
  obtain ⟨msg, mdl, sp0, ms0, str⟩ := a
  constructor
  · have hy : (runChat c p ⟨msg, mdl, sp0, ms0, true⟩).yielded
        = streamYields chunks := by
      simp [runChat, hstream]
    rw [hy, join_streamYields, hsum]
  · simp [runChat, hfull]

/-- Witness for C7: deltas "He", an empty delta, a missing delta, then
"llo", against full content "Hello". -/
theorem stream_concat_eq_nonstream_witness :
    String.join ((runChat galaxyClient
        (constMock "Hello"
          [⟨[⟨⟨some "He"⟩⟩]⟩, ⟨[⟨⟨some ""⟩⟩]⟩, ⟨[]⟩, ⟨[⟨⟨some "llo"⟩⟩]⟩] none)
        { galaxyArgs with stream := true }).yielded) = "Hello"
    ∧ (runChat galaxyClient
        (constMock "Hello"
          [⟨[⟨⟨some "He"⟩⟩]⟩, ⟨[⟨⟨some ""⟩⟩]⟩, ⟨[]⟩, ⟨[⟨⟨some "llo"⟩⟩]⟩] none)
        { galaxyArgs with stream := false }).result = .ok (some "Hello") :=
  stream_concat_eq_nonstream galaxyClient
    (constMock "Hello"
      [⟨[⟨⟨some "He"⟩⟩]⟩, ⟨[⟨⟨some ""⟩⟩]⟩, ⟨[]⟩, ⟨[⟨⟨some "llo"⟩⟩]⟩] none)
    galaxyArgs
    [⟨[⟨⟨some "He"⟩⟩]⟩, ⟨[⟨⟨some ""⟩⟩]⟩, ⟨[]⟩, ⟨[⟨⟨some "llo"⟩⟩]⟩]
    "Hello" [] rfl rfl (by decide)

/-- Claim C8: every yielded element of a streaming call is the content
of exactly one delivered delta that carried truthy content — the yielded
list is the delta contents with the missing and empty ones dropped, and
it never contains an empty string. -/
theorem stream_skips_empty (c : Client) (p : Provider) (a : ChatArgs)
    (sr : StreamResult) (hs : a.stream = true)
    (hp : p.createStream (selectedModel c a.model)
        (chatMessages a.message (currentSystemPrompt a.system_prompt) a.messages)
        = .ok sr) :
    (runChat c p a).yielded
      = (sr.chunks.filterMap chunkContent).filter (fun s => s ≠ "")
    ∧ ∀ s ∈ (runChat c p a).yielded, s ≠ "" := by
  have hy : (runChat c p a).yielded = streamYields sr.chunks := by
    obtain ⟨msg, mdl, sp0, ms0, str⟩ := a
    cases hs
    cases hm : sr.midError <;> simp [runChat, hp, hm]
  constructor
  · rw [hy, streamYields_eq_filter]
  · intro s hsmem
    rw [hy, streamYields_eq_filter] at hsmem
    exact of_decide_eq_true (List.mem_filter.mp hsmem).2

/-- Witness for C8: deltas "He", empty, missing, "llo". -/
theorem stream_skips_empty_witness :
    (runChat galaxyClient
        (constMock ""
          [⟨[⟨⟨some "He"⟩⟩]⟩, ⟨[⟨⟨some ""⟩⟩]⟩, ⟨[]⟩, ⟨[⟨⟨some "llo"⟩⟩]⟩] none)
        { galaxyArgs with stream := true }).yielded
      = (([⟨[⟨⟨some "He"⟩⟩]⟩, ⟨[⟨⟨some ""⟩⟩]⟩, ⟨[]⟩, ⟨[⟨⟨some "llo"⟩⟩]⟩]
          : List StreamChunk).filterMap chunkContent).filter (fun s => s ≠ "")
    ∧ ∀ s ∈ (runChat galaxyClient
        (constMock ""
          [⟨[⟨⟨some "He"⟩⟩]⟩, ⟨[⟨⟨some ""⟩⟩]⟩, ⟨[]⟩, ⟨[⟨⟨some "llo"⟩⟩]⟩] none)
        { galaxyArgs with stream := true }).yielded, s ≠ "" :=
  stream_skips_empty galaxyClient
    (constMock ""
      [⟨[⟨⟨some "He"⟩⟩]⟩, ⟨[⟨⟨some ""⟩⟩]⟩, ⟨[]⟩, ⟨[⟨⟨some "llo"⟩⟩]⟩] none)
    { galaxyArgs with stream := true }
    ⟨[⟨[⟨⟨some "He"⟩⟩]⟩, ⟨[⟨⟨some ""⟩⟩]⟩, ⟨[]⟩, ⟨[⟨⟨some "llo"⟩⟩]⟩], none⟩
    rfl rfl

/-- The claim C9 reading of option resolution: a supplied option is used
as the effective value, whatever it is; only an absent option falls back
to the default.  To be compared with the source resolution `pyOr`. -/
def claimedEffective (opt : Option String) (d : String) : String :=
  match opt with
  | some v => v
  | none => d

/-- Claim C9 counterexample: supplying the empty string as the model
option does not make it the effective model — the Python `or` at
src/PerplexityClient.py line 81 treats it as falsy, so the client
default_model is used, where the claim as stated demands the supplied
empty string. -/
theorem effective_model_empty_cex :
    selectedModel galaxyClient (some "")
        ≠ claimedEffective (some "") galaxyClient.default_model
    ∧ selectedModel galaxyClient (some "") = galaxyClient.default_model := by
  decide

/-- Claim C9 as amended: the effective model is the model option when
supplied and non-empty and otherwise the client default_model (an empty
supplied option also falls back), the effective system prompt is the
system_prompt option when supplied and non-empty and otherwise
"Be precise and concise.", and the issued request indeed carries the
effective model and the effective system prompt in the conversation it
synthesizes. -/
theorem effective_defaults (c : Client) (m sp : String) (hm : m ≠ "")
    (hsp : sp ≠ "") :
    selectedModel c (some m) = m
    ∧ selectedModel c none = c.default_model
    ∧ selectedModel c (some "") = c.default_model
    ∧ currentSystemPrompt (some sp) = sp
    ∧ currentSystemPrompt none = DEFAULT_SYSTEM_PROMPT
    ∧ currentSystemPrompt (some "") = DEFAULT_SYSTEM_PROMPT
    ∧ ∀ (p : Provider) (a : ChatArgs),
        ((chat c a).run p).requests
          = [⟨selectedModel c a.model,
              chatMessages a.message (currentSystemPrompt a.system_prompt)
                a.messages, a.stream⟩] :=
  ⟨by simp [selectedModel, pyOr, hm], rfl, rfl,
   by simp [currentSystemPrompt, pyOr, hsp], rfl, rfl,
   fun p a => runChat_requests c p a⟩

/-- Witness for the amended C9 at concrete inputs. -/
theorem effective_defaults_witness :
    selectedModel galaxyClient (some "sonar-pro") = "sonar-pro"
    ∧ selectedModel galaxyClient none = galaxyClient.default_model
    ∧ selectedModel galaxyClient (some "") = galaxyClient.default_model
    ∧ currentSystemPrompt (some "Answer tersely.") = "Answer tersely."
    ∧ currentSystemPrompt none = DEFAULT_SYSTEM_PROMPT
    ∧ currentSystemPrompt (some "") = DEFAULT_SYSTEM_PROMPT
    ∧ ∀ (p : Provider) (a : ChatArgs),
        ((chat galaxyClient a).run p).requests
          = [⟨selectedModel galaxyClient a.model,
              chatMessages a.message (currentSystemPrompt a.system_prompt)
                a.messages, a.stream⟩] :=
  effective_defaults galaxyClient "sonar-pro" "Answer tersely."
    (by decide) (by decide)

/-- Claim C10: when the underlying request raises, the wrapper run
swallows nothing: a provider-level OpenAIError is logged through the
ApiError line and any other exception through the UnexpectedError line,
the very same exception propagates out of the run, and no StopIteration
payload is produced.  This holds for the non-streaming request, for a
streaming request failing at creation, and for a mid-stream failure. -/
theorem chat_errors_propagate (c : Client) (p : Provider) (a : ChatArgs)
    (e : PyError) :
    (a.stream = false →
      p.create (selectedModel c a.model)
          (chatMessages a.message (currentSystemPrompt a.system_prompt)
            a.messages) = .error e →
      (chat c a).run p
        = ⟨[⟨selectedModel c a.model,
            chatMessages a.message (currentSystemPrompt a.system_prompt)
              a.messages, false⟩], [], [logFor e], .error e⟩)
    ∧ (a.stream = true →
      p.createStream (selectedModel c a.model)
          (chatMessages a.message (currentSystemPrompt a.system_prompt)
            a.messages) = .error e →
      (chat c a).run p
        = ⟨[⟨selectedModel c a.model,
            chatMessages a.message (currentSystemPrompt a.system_prompt)
              a.messages, true⟩], [], [logFor e], .error e⟩)
    ∧ (∀ chunks, a.stream = true →
      p.createStream (selectedModel c a.model)
          (chatMessages a.message (currentSystemPrompt a.system_prompt)
            a.messages) = .ok ⟨chunks, some e⟩ →
      ((chat c a).run p).result = .error e
      ∧ ((chat c a).run p).log = [logFor e])
    ∧ (∀ msg, logFor (.openAIError msg) = .apiError msg
      ∧ logFor (.otherError msg) = .unexpectedError msg) := by
  obtain ⟨msg0, mdl, sp0, ms0, str⟩ := a
  refine ⟨?_, ?_, ?_, fun msg => ⟨rfl, rfl⟩⟩
  · rintro rfl hp
    simp [chat, PyGen.run, runChat, hp]
  · rintro rfl hp
    simp [chat, PyGen.run, runChat, hp]
  · rintro chunks rfl hp
    constructor <;> simp [chat, PyGen.run, runChat, hp]

/-- Witness for C10: a failing non-streaming request with an
OpenAIError, a failing stream creation with a generic exception, and a
mid-stream OpenAIError. -/
theorem chat_errors_propagate_witness :
    (chat galaxyClient galaxyArgs).run
        ⟨fun _ _ => .error (.openAIError "rate limit"),
         fun _ _ => .ok ⟨[], none⟩⟩
      = ⟨[⟨selectedModel galaxyClient none,
          chatMessages galaxyQuestion (currentSystemPrompt none) none,
          false⟩], [], [logFor (.openAIError "rate limit")],
         .error (.openAIError "rate limit")⟩
    ∧ (chat galaxyClient { galaxyArgs with stream := true }).run
        ⟨fun _ _ => .ok ⟨[]⟩,
         fun _ _ => .error (.otherError "connection reset")⟩
      = ⟨[⟨selectedModel galaxyClient none,
          chatMessages galaxyQuestion (currentSystemPrompt none) none,
          true⟩], [], [logFor (.otherError "connection reset")],
         .error (.otherError "connection reset")⟩
    ∧ ((chat galaxyClient { galaxyArgs with stream := true }).run
        (constMock "" [wChunkHello] (some (.openAIError "cut off")))).result
      = .error (.openAIError "cut off")
    ∧ ((chat galaxyClient { galaxyArgs with stream := true }).run
        (constMock "" [wChunkHello] (some (.openAIError "cut off")))).log
      = [logFor (.openAIError "cut off")] :=
  ⟨(chat_errors_propagate galaxyClient
      ⟨fun _ _ => .error (.openAIError "rate limit"),
       fun _ _ => .ok ⟨[], none⟩⟩ galaxyArgs (.openAIError "rate limit")).1
      rfl rfl,
   (chat_errors_propagate galaxyClient
      ⟨fun _ _ => .ok ⟨[]⟩,
       fun _ _ => .error (.otherError "connection reset")⟩
      { galaxyArgs with stream := true } (.otherError "connection reset")).2.1
      rfl rfl,
   ((chat_errors_propagate galaxyClient
      (constMock "" [wChunkHello] (some (.openAIError "cut off")))
      { galaxyArgs with stream := true } (.openAIError "cut off")).2.2.1
      [wChunkHello] rfl rfl).1,
   ((chat_errors_propagate galaxyClient
      (constMock "" [wChunkHello] (some (.openAIError "cut off")))
      { galaxyArgs with stream := true } (.openAIError "cut off")).2.2.1
      [wChunkHello] rfl rfl).2⟩

end PerplexitySpec
